import Mathlib

/-!
Shallow embedding of the runtime backend-dispatch loader in
`src/include/function_table_initializer.hpp` (the `table_initializer`
class template), together with theorems about its resolve/cache behaviour.

The embedding makes the C++ side effects explicit: a resolve call is a
pure function from the environment (platform loading primitives, build
configuration, static registry) and the current cache state to an
outcome record that carries the returned reference or thrown exception,
the new cache state, and an instrumentation trace of the observable
actions (library-open attempts, symbol lookups, `std::cerr` output,
handle releases, cache mutations in program order).
-/

set_option autoImplicit false

namespace OneMathLoader

/-- Compute device identifiers (the `oneapi::math::device` enumeration,
external to the loader).  We model two ordinary targets plus the special
`generic_device` fallback value that `add_table` treats specially. -/
inductive device where
  | x86cpu
  | nvidiagpu
  | generic_device
deriving DecidableEq, Repr

/-- The `sycl::queue` passed alongside the device, reduced to the only
piece of information the loader ever reads from it: `q.get_device()`,
used as the diagnostic payload of `unsupported_device`.  The device
information is modelled as an opaque number. -/
structure sycl_queue where
  device_info : Nat
deriving DecidableEq, Repr

/-- Model of `q.get_device()`. -/
def sycl_queue.get_device (q : sycl_queue) : Nat := q.device_info

/-- The per-domain function table `function_table_t`: a plain record
whose first field is the integer ABI version; the rest is opaque to the
loader and is modelled as a single payload value. -/
structure function_table_t where
  version : Nat
  payload : Nat
deriving DecidableEq, Repr

/-- Model of `#define SPEC_VERSION 1`. -/
def SPEC_VERSION : Nat := 1

/-- A native library handle token: a non-null `LIB_TYPE` value as
produced by `GET_LIB_HANDLE`. -/
abbrev Handle := Nat

/-- The typed failures thrown by `add_table`
(`oneapi::math::unsupported_device`, `backend_not_found`,
`function_not_found`, `specification_mismatch`).  The payload of
`unsupported_device` mirrors the constructor call
`unsupported_device("", "", q.get_device())`. -/
inductive math_error where
  | unsupported_device (backend fname : String) (device_info : Nat)
  | backend_not_found
  | function_not_found
  | specification_mismatch
deriving DecidableEq, Repr

/-- Model of `std::map::find` on the association-list model of
`std::map` used throughout this file. -/
def map_find {α : Type} (key : device) : List (device × α) → Option α
  | [] => none
  | (k, v) :: rest => if key = k then some v else map_find key rest

/-- Model of an assignment through `std::map::operator[]`: replaces the
value bound to `key` if present, otherwise adds a new entry. -/
def map_insert {α : Type} (key : device) (v : α) : List (device × α) → List (device × α)
  | [] => [(key, v)]
  | (k, w) :: rest => if key = k then (key, v) :: rest else (k, w) :: map_insert key v rest

/-- The environment one `table_initializer<domain_id, function_table_t>`
instantiation runs in: the platform loading primitives
(`GET_LIB_HANDLE`, `GET_FUNC`, `ERROR_MSG`), the build-configuration
constant `is_generic_device_supported`, and the static registry data for
the one domain this instance serves (`libraries[domain_id]` and
`table_names[domain_id]`, both defined outside this header).
Here `get_lib_handle name = none` models a null return from the platform
opener; `get_func h sym = some t` models a successful symbol resolution
whose dereference reads the table value `t`, while `none` models a null
symbol pointer. -/
structure Env where
  get_lib_handle : String → Option Handle
  get_func : Handle → String → Option function_table_t
  error_msg : String
  is_generic_device_supported : Bool
  libraries : List (device × List String)
  table_name : String

/-- The candidate-list lookup `libraries[domain_id][key]`.  The registry
is a `std::map`, so `operator[]` default-constructs an empty list for a
device that has no entry. -/
def Env.candidates (env : Env) (key : device) : List String :=
  match map_find key env.libraries with
  | some names => names
  | none => []

/-- The two per-domain caches of `table_initializer`:
`std::map<device, function_table_t> tables` and
`std::map<device, dlhandle> handles`. -/
structure LoaderState where
  tables : List (device × function_table_t)
  handles : List (device × Handle)
deriving DecidableEq, Repr

/-- What the `function_table_t&` returned by a resolve call refers to:
either the entry stored in the `tables` cache (the fast path returns
`lib->second`), or the table object living inside the opened plugin
image (`add_table` returns `*t`, where
`t = GET_FUNC(handle.get(), table_names[domain_id])`). -/
inductive TableRef where
  | cached (d : device)
  | plugin (h : Handle)
deriving DecidableEq, Repr

/-- One mutation of the caches, recorded in program order. -/
inductive CacheOp where
  | storeHandle (d : device) (h : Handle)
  | storeTable (d : device) (t : function_table_t)
deriving DecidableEq, Repr

deriving instance DecidableEq for Except

/-- The observable outcome of one `operator[]` call: the returned
reference or thrown exception, the cache state after the call, and an
instrumentation trace of the side effects the C++ performs —
`attempts`: the names passed to `GET_LIB_HANDLE`, in order;
`symbol_lookups`: the `GET_FUNC` calls;
`stderr`: the diagnostic lines printed to `std::cerr`;
`released`: the handles freed by the `dlhandle` destructor during the call;
`ops`: the cache mutations, in program order. -/
structure ResolveOutcome where
  result : Except math_error TableRef
  state : LoaderState
  attempts : List String
  symbol_lookups : List (Handle × String)
  stderr : List String
  released : List Handle
  ops : List CacheOp
deriving DecidableEq, Repr

/-- The candidate loop of `add_table`:
`for (const char* libname : libraries[domain_id][key])
   { handle = dlhandle{ GET_LIB_HANDLE(libname) }; if (handle) break; }`.
Returns the names passed to `GET_LIB_HANDLE` in order, together with the
handle that stopped the loop, if any. -/
def open_candidates (env : Env) : List String → List String × Option Handle
  | [] => ([], none)
  | libname :: rest =>
    match env.get_lib_handle libname with
    | some h => ([libname], some h)
    | none =>
      let r := open_candidates env rest
      (libname :: r.1, r.2)

/-- Model of `table_initializer::add_table(key, q)` — the slow path. -/
def add_table (env : Env) (st : LoaderState) (key : device) (q : sycl_queue) :
    ResolveOutcome :=
  match open_candidates env (env.candidates key) with
  | (attempted, none) =>
    if env.is_generic_device_supported = false ∧ key = device.generic_device then
      { result := .error (.unsupported_device "" "" q.get_device), state := st,
        attempts := attempted, symbol_lookups := [], stderr := [],
        released := [], ops := [] }
    else
      { result := .error .backend_not_found, state := st,
        attempts := attempted, symbol_lookups := [],
        stderr := [env.error_msg], released := [], ops := [] }
  | (attempted, some handle) =>
    match env.get_func handle env.table_name with
    | none =>
      { result := .error .function_not_found, state := st,
        attempts := attempted, symbol_lookups := [(handle, env.table_name)],
        stderr := [env.error_msg], released := [handle], ops := [] }
    | some t =>
      if t.version ≠ SPEC_VERSION then
        { result := .error .specification_mismatch, state := st,
          attempts := attempted, symbol_lookups := [(handle, env.table_name)],
          stderr := [], released := [handle], ops := [] }
      else
        { result := .ok (.plugin handle),
          state := { tables := map_insert key t st.tables,
                     handles := map_insert key handle st.handles },
          attempts := attempted, symbol_lookups := [(handle, env.table_name)],
          stderr := [], released := [],
          ops := [.storeHandle key handle, .storeTable key t] }

/-- Model of `table_initializer::operator[](device_queue_pair)` — the
resolve call: fast path on a `tables` cache hit, otherwise `add_table`. -/
def resolve (env : Env) (st : LoaderState) (dq : device × sycl_queue) :
    ResolveOutcome :=
  match map_find dq.1 st.tables with
  | some _ =>
    { result := .ok (.cached dq.1), state := st, attempts := [],
      symbol_lookups := [], stderr := [], released := [], ops := [] }
  | none => add_table env st dq.1 dq.2

/-- Classifies a failure by its kind alone, discarding the diagnostic
payload.  Used to state that the queue argument influences only the
payload of `unsupported_device`. -/
def error_kind : math_error → Nat
  | .unsupported_device _ _ _ => 0
  | .backend_not_found => 1
  | .function_not_found => 2
  | .specification_mismatch => 3

/-- The cache coupling invariant: every device with a cached function
table also has its backing handle in the handle cache. -/
def cache_invariant (st : LoaderState) : Prop :=
  ∀ d t, map_find d st.tables = some t → ∃ h, map_find d st.handles = some h

/- Concrete test fixtures used by witnesses and counterexamples. -/

/-- A valid version-1 table. -/
def tbl1 : function_table_t := { version := 1, payload := 42 }

/-- A table stamped with version 2 (mismatching `SPEC_VERSION`). -/
def tbl2 : function_table_t := { version := 2, payload := 42 }

/-- The empty cache state. -/
def st0 : LoaderState := { tables := [], handles := [] }

/-- A concrete queue. -/
def q0 : sycl_queue := { device_info := 3 }

/-- A second concrete queue with different device information. -/
def q1 : sycl_queue := { device_info := 5 }

/-- Environment in which the single candidate for `x86cpu` opens as
handle 7 and exports a valid version-1 table. -/
def envOK : Env :=
  { get_lib_handle := fun s => if s = "libA" then some 7 else none,
    get_func := fun h sym => if h = 7 ∧ sym = "tblsym" then some tbl1 else none,
    error_msg := "err",
    is_generic_device_supported := false,
    libraries := [(device.x86cpu, ["libA"])],
    table_name := "tblsym" }

/-- Environment with candidates `[libA, libB]` for `x86cpu` where only
`libB` opens (as handle 8), exporting a valid version-1 table. -/
def envAB : Env :=
  { get_lib_handle := fun s => if s = "libB" then some 8 else none,
    get_func := fun h sym => if h = 8 ∧ sym = "tblsym" then some tbl1 else none,
    error_msg := "err",
    is_generic_device_supported := false,
    libraries := [(device.x86cpu, ["libA", "libB"])],
    table_name := "tblsym" }

/-- Environment whose plugin opens (handle 9) but exports a version-2
table against the expected version 1. -/
def envV2 : Env :=
  { get_lib_handle := fun s => if s = "libA" then some 9 else none,
    get_func := fun h sym => if h = 9 ∧ sym = "tblsym" then some tbl2 else none,
    error_msg := "err",
    is_generic_device_supported := false,
    libraries := [(device.x86cpu, ["libA"])],
    table_name := "tblsym" }

/-- Environment whose plugin opens (handle 5) but lacks the expected
exported symbol. -/
def envNoSym : Env :=
  { get_lib_handle := fun s => if s = "libA" then some 5 else none,
    get_func := fun _ _ => none,
    error_msg := "err",
    is_generic_device_supported := false,
    libraries := [(device.x86cpu, ["libA"])],
    table_name := "tblsym" }

/-- A cache state that already holds a table and handle for `x86cpu`. -/
def stCached : LoaderState :=
  { tables := [(device.x86cpu, tbl1)], handles := [(device.x86cpu, 7)] }

/- Shared lemmas about the association-list maps and the candidate loop. -/

theorem map_find_insert_self {α : Type} (key : device) (v : α) (l : List (device × α)) :
    map_find key (map_insert key v l) = some v := by
  induction l with
  | nil => simp [map_find, map_insert]
  | cons p rest ih =>
    obtain ⟨k, w⟩ := p
    by_cases h : key = k <;> simp [map_find, map_insert, h, ih]

theorem map_find_insert_other {α : Type} (key d : device) (v : α) (l : List (device × α))
    (h : key ≠ d) : map_find key (map_insert d v l) = map_find key l := by
  induction l with
  | nil => simp [map_find, map_insert, h]
  | cons p rest ih =>
    obtain ⟨k, w⟩ := p
    by_cases h2 : d = k
    · subst h2
      simp [map_find, map_insert, h]
    · by_cases h3 : key = k <;> simp [map_find, map_insert, h2, h3, ih]

theorem open_candidates_all_fail (env : Env) (names : List String)
    (h : ∀ n ∈ names, env.get_lib_handle n = none) :
    open_candidates env names = (names, none) := by
  induction names with
  | nil => rfl
  | cons n rest ih =>
    have hn := h n (by simp)
    have ih2 := ih (fun m hm => h m (List.mem_cons_of_mem _ hm))
    simp [open_candidates, hn, ih2]

theorem open_candidates_attempts (env : Env) (names : List String) :
    (open_candidates env names).1 =
      names.takeWhile (fun n => (env.get_lib_handle n).isNone) ++
      (names.dropWhile (fun n => (env.get_lib_handle n).isNone)).take 1 := by
  induction names with
  | nil => rfl
  | cons n rest ih =>
    cases hn : env.get_lib_handle n with
    | some h => simp [open_candidates, hn, List.takeWhile_cons, List.dropWhile_cons]
    | none => simp [open_candidates, hn, List.takeWhile_cons, List.dropWhile_cons, ih]

theorem resolve_cached (env : Env) (st : LoaderState) (key : device) (q : sycl_queue)
    (t : function_table_t) (h : map_find key st.tables = some t) :
    resolve env st (key, q) =
      { result := .ok (.cached key), state := st, attempts := [],
        symbol_lookups := [], stderr := [], released := [], ops := [] } := by
  simp [resolve, h]

theorem resolve_uncached (env : Env) (st : LoaderState) (key : device) (q : sycl_queue)
    (h : map_find key st.tables = none) :
    resolve env st (key, q) = add_table env st key q := by
  simp [resolve, h]

theorem add_table_success (env : Env) (st : LoaderState) (key : device) (q : sycl_queue)
    (hd : Handle) (t : function_table_t)
    (hopen : (open_candidates env (env.candidates key)).2 = some hd)
    (hsym : env.get_func hd env.table_name = some t)
    (hver : t.version = SPEC_VERSION) :
    add_table env st key q =
      { result := .ok (.plugin hd),
        state := { tables := map_insert key t st.tables,
                   handles := map_insert key hd st.handles },
        attempts := (open_candidates env (env.candidates key)).1,
        symbol_lookups := [(hd, env.table_name)], stderr := [], released := [],
        ops := [.storeHandle key hd, .storeTable key t] } := by
  unfold add_table
  rcases hoc : open_candidates env (env.candidates key) with ⟨att, o⟩
  rw [hoc] at hopen
  simp only at hopen
  subst hopen
  simp [hsym, hver]

theorem add_table_no_open_generic (env : Env) (st : LoaderState) (key : device)
    (q : sycl_queue)
    (hopen : (open_candidates env (env.candidates key)).2 = none)
    (hg : env.is_generic_device_supported = false) (hk : key = device.generic_device) :
    add_table env st key q =
      { result := .error (.unsupported_device "" "" q.get_device), state := st,
        attempts := (open_candidates env (env.candidates key)).1,
        symbol_lookups := [], stderr := [], released := [], ops := [] } := by
  unfold add_table
  rcases hoc : open_candidates env (env.candidates key) with ⟨att, o⟩
  rw [hoc] at hopen
  simp only at hopen
  subst hopen
  simp [hg, hk]

theorem add_table_no_open_other (env : Env) (st : LoaderState) (key : device)
    (q : sycl_queue)
    (hopen : (open_candidates env (env.candidates key)).2 = none)
    (hg : ¬(env.is_generic_device_supported = false ∧ key = device.generic_device)) :
    add_table env st key q =
      { result := .error .backend_not_found, state := st,
        attempts := (open_candidates env (env.candidates key)).1,
        symbol_lookups := [], stderr := [env.error_msg], released := [], ops := [] } := by
  unfold add_table
  rcases hoc : open_candidates env (env.candidates key) with ⟨att, o⟩
  rw [hoc] at hopen
  simp only at hopen
  subst hopen
  simp [hg]

theorem add_table_no_sym (env : Env) (st : LoaderState) (key : device) (q : sycl_queue)
    (hd : Handle)
    (hopen : (open_candidates env (env.candidates key)).2 = some hd)
    (hsym : env.get_func hd env.table_name = none) :
    add_table env st key q =
      { result := .error .function_not_found, state := st,
        attempts := (open_candidates env (env.candidates key)).1,
        symbol_lookups := [(hd, env.table_name)], stderr := [env.error_msg],
        released := [hd], ops := [] } := by
  unfold add_table
  rcases hoc : open_candidates env (env.candidates key) with ⟨att, o⟩
  rw [hoc] at hopen
  simp only at hopen
  subst hopen
  simp [hsym]

theorem add_table_bad_version (env : Env) (st : LoaderState) (key : device)
    (q : sycl_queue) (hd : Handle) (t : function_table_t)
    (hopen : (open_candidates env (env.candidates key)).2 = some hd)
    (hsym : env.get_func hd env.table_name = some t)
    (hver : t.version ≠ SPEC_VERSION) :
    add_table env st key q =
      { result := .error .specification_mismatch, state := st,
        attempts := (open_candidates env (env.candidates key)).1,
        symbol_lookups := [(hd, env.table_name)], stderr := [],
        released := [hd], ops := [] } := by
  unfold add_table
  rcases hoc : open_candidates env (env.candidates key) with ⟨att, o⟩
  rw [hoc] at hopen
  simp only at hopen
  subst hopen
  simp [hsym, hver]

theorem add_table_attempts (env : Env) (st : LoaderState) (key : device) (q : sycl_queue) :
    (add_table env st key q).attempts = (open_candidates env (env.candidates key)).1 := by
  unfold add_table
  rcases hoc : open_candidates env (env.candidates key) with ⟨att, o⟩
  cases o with
  | none =>
    by_cases hg : env.is_generic_device_supported = false ∧ key = device.generic_device <;>
      simp [hg]
  | some hd =>
    cases hf : env.get_func hd env.table_name with
    | none => simp [hf]
    | some t =>
      by_cases hv : t.version ≠ SPEC_VERSION <;> simp [hf, hv]

theorem resolve_shape (env : Env) (st : LoaderState) (key : device) (q : sycl_queue) :
    ((resolve env st (key, q)).state = st ∧ (resolve env st (key, q)).ops = []) ∨
    (∃ hd t, (resolve env st (key, q)).result = .ok (.plugin hd) ∧
      (resolve env st (key, q)).state =
        { tables := map_insert key t st.tables,
          handles := map_insert key hd st.handles } ∧
      (resolve env st (key, q)).ops =
        [CacheOp.storeHandle key hd, CacheOp.storeTable key t]) := by
  cases hfind : map_find key st.tables with
  | some t =>
    left
    rw [resolve_cached env st key q t hfind]
    exact ⟨rfl, rfl⟩
  | none =>
    rw [resolve_uncached env st key q hfind]
    cases hoc : (open_candidates env (env.candidates key)).2 with
    | none =>
      left
      by_cases hg : env.is_generic_device_supported = false ∧ key = device.generic_device
      · rw [add_table_no_open_generic env st key q hoc hg.1 hg.2]
        exact ⟨rfl, rfl⟩
      · rw [add_table_no_open_other env st key q hoc hg]
        exact ⟨rfl, rfl⟩
    | some hd =>
      cases hf : env.get_func hd env.table_name with
      | none =>
        left
        rw [add_table_no_sym env st key q hd hoc hf]
        exact ⟨rfl, rfl⟩
      | some t =>
        by_cases hv : t.version ≠ SPEC_VERSION
        · left
          rw [add_table_bad_version env st key q hd t hoc hf hv]
          exact ⟨rfl, rfl⟩
        · right
          push_neg at hv
          rw [add_table_success env st key q hd t hoc hf hv]
          exact ⟨hd, t, rfl, rfl, rfl⟩

theorem resolve_ok_table (env : Env) (st : LoaderState) (key : device) (q : sycl_queue)
    (r : TableRef) (h : (resolve env st (key, q)).result = .ok r) :
    ∃ t2, map_find key (resolve env st (key, q)).state.tables = some t2 := by
  cases hfind : map_find key st.tables with
  | some t =>
    rw [resolve_cached env st key q t hfind]
    exact ⟨t, hfind⟩
  | none =>
    rw [resolve_uncached env st key q hfind] at h ⊢
    cases hoc : (open_candidates env (env.candidates key)).2 with
    | none =>
      by_cases hg : env.is_generic_device_supported = false ∧ key = device.generic_device
      · rw [add_table_no_open_generic env st key q hoc hg.1 hg.2] at h
        simp at h
      · rw [add_table_no_open_other env st key q hoc hg] at h
        simp at h
    | some hd =>
      cases hf : env.get_func hd env.table_name with
      | none =>
        rw [add_table_no_sym env st key q hd hoc hf] at h
        simp at h
      | some t =>
        by_cases hv : t.version ≠ SPEC_VERSION
        · rw [add_table_bad_version env st key q hd t hoc hf hv] at h
          simp at h
        · push_neg at hv
          rw [add_table_success env st key q hd t hoc hf hv]
          exact ⟨t, by simp [map_find_insert_self]⟩

/- Claim theorems. -/

/-- C1, counterexample: in a concrete environment whose single candidate
opens (handle 7) and exports a valid version-1 table, the first resolve
call does store the handle and copy the table into the caches, but the
reference it returns is to the table inside the plugin image (`*t`), not
to the cached copy — refuting the claim's final clause. -/
theorem c1_counterexample :
    map_find device.x86cpu (resolve envOK st0 (device.x86cpu, q0)).state.tables =
      some tbl1 ∧
    map_find device.x86cpu (resolve envOK st0 (device.x86cpu, q0)).state.handles =
      some 7 ∧
    (resolve envOK st0 (device.x86cpu, q0)).result = .ok (.plugin 7) ∧
    (resolve envOK st0 (device.x86cpu, q0)).result ≠ .ok (.cached device.x86cpu) := by
  decide

/-- C1 (amended): for every device whose first resolve succeeds (some
candidate opens, the symbol resolves, and the table's version equals the
expected specification version), the resolve call stores the handle in
the Handle Cache, copies the dereferenced table value into the Function
Table Cache under that device, and returns a reference to the table
inside the plugin image, whose value equals the cached copy. -/
theorem c1_success_stores_and_returns_plugin_ref
    (env : Env) (st : LoaderState) (key : device) (q : sycl_queue)
    (hd : Handle) (t : function_table_t)
    (huncached : map_find key st.tables = none)
    (hopen : (open_candidates env (env.candidates key)).2 = some hd)
    (hsym : env.get_func hd env.table_name = some t)
    (hver : t.version = SPEC_VERSION) :
    map_find key (resolve env st (key, q)).state.handles = some hd ∧
    map_find key (resolve env st (key, q)).state.tables = some t ∧
    (resolve env st (key, q)).result = .ok (.plugin hd) := by
  rw [resolve_uncached env st key q huncached,
      add_table_success env st key q hd t hopen hsym hver]
  exact ⟨map_find_insert_self key hd st.handles, map_find_insert_self key t st.tables, rfl⟩

/-- Witness for the amended C1 theorem at a concrete environment. -/
theorem c1_success_stores_and_returns_plugin_ref_witness :
    map_find device.x86cpu (resolve envOK st0 (device.x86cpu, q0)).state.handles =
      some 7 ∧
    map_find device.x86cpu (resolve envOK st0 (device.x86cpu, q0)).state.tables =
      some tbl1 ∧
    (resolve envOK st0 (device.x86cpu, q0)).result = .ok (.plugin 7) :=
  c1_success_stores_and_returns_plugin_ref envOK st0 device.x86cpu q0 7 tbl1
    (by decide) (by decide) (by decide) (by decide)

/-- C2: for every device and every failure outcome of a resolve call,
both the Function Table Cache and the Handle Cache are left exactly as
they were before the call, so a subsequent resolve for the same device
re-attempts loading from scratch (it behaves exactly like the first). -/
theorem c2_failure_leaves_caches_untouched
    (env : Env) (st : LoaderState) (dq : device × sycl_queue) (e : math_error)
    (h : (resolve env st dq).result = .error e) :
    (resolve env st dq).state = st ∧
    resolve env ((resolve env st dq).state) dq = resolve env st dq := by
  obtain ⟨key, q⟩ := dq
  have hstate : (resolve env st (key, q)).state = st := by
    cases hfind : map_find key st.tables with
    | some t =>
      rw [resolve_cached env st key q t hfind] at h
      simp at h
    | none =>
      rw [resolve_uncached env st key q hfind] at h ⊢
      cases hoc : (open_candidates env (env.candidates key)).2 with
      | none =>
        by_cases hg : env.is_generic_device_supported = false ∧ key = device.generic_device
        · rw [add_table_no_open_generic env st key q hoc hg.1 hg.2]
        · rw [add_table_no_open_other env st key q hoc hg]
      | some hd =>
        cases hf : env.get_func hd env.table_name with
        | none => rw [add_table_no_sym env st key q hd hoc hf]
        | some t =>
          by_cases hv : t.version ≠ SPEC_VERSION
          · rw [add_table_bad_version env st key q hd t hoc hf hv]
          · push_neg at hv
            rw [add_table_success env st key q hd t hoc hf hv] at h
            simp at h
  exact ⟨hstate, by rw [hstate]⟩

/-- Witness for C2 at a concrete failing resolve (no candidate opens for
`nvidiagpu`, giving `backend_not_found`). -/
theorem c2_failure_leaves_caches_untouched_witness :
    (resolve envOK st0 (device.nvidiagpu, q0)).state = st0 ∧
    resolve envOK ((resolve envOK st0 (device.nvidiagpu, q0)).state)
        (device.nvidiagpu, q0) =
      resolve envOK st0 (device.nvidiagpu, q0) :=
  c2_failure_leaves_caches_untouched envOK st0 (device.nvidiagpu, q0)
    math_error.backend_not_found (by decide)

/-- C3: for every device already present in the Function Table Cache, a
resolve call returns a reference to the existing cached entry with no
library-open attempt, no symbol lookup and no cache modification; an
entry once present is never reloaded or replaced by any later resolve
call; and once a resolve call has succeeded, a consecutive resolve call
for the same device is served from cache with zero open attempts (so the
two calls together perform only the first call's open attempts — exactly
one in the stub scenario where the single candidate opens). -/
theorem c3_cache_hit_idempotent
    (env : Env) (st : LoaderState) (key : device) (q : sycl_queue)
    (t : function_table_t) (h : map_find key st.tables = some t) :
    resolve env st (key, q) =
      { result := .ok (.cached key), state := st, attempts := [],
        symbol_lookups := [], stderr := [], released := [], ops := [] } ∧
    (∀ (env2 : Env) (d : device) (q2 : sycl_queue),
      map_find key (resolve env2 st (d, q2)).state.tables = some t) ∧
    (∀ (st1 : LoaderState) (q1 q2 : sycl_queue) (r : TableRef),
      (resolve env st1 (key, q1)).result = .ok r →
      (resolve env ((resolve env st1 (key, q1)).state) (key, q2)).attempts = [] ∧
      (resolve env ((resolve env st1 (key, q1)).state) (key, q2)).state =
        (resolve env st1 (key, q1)).state) := by
  refine ⟨resolve_cached env st key q t h, ?_, ?_⟩
  · intro env2 d q2
    rcases resolve_shape env2 st d q2 with ⟨hs, _⟩ | ⟨hd, t2, _, hs, _⟩
    · rw [hs]
      exact h
    · rw [hs]
      by_cases hkd : key = d
      · subst hkd
        cases hfind : map_find key st.tables with
        | some t3 =>
          rw [resolve_cached env2 st key q2 t3 hfind] at hs
          have : st.tables = map_insert key t2 st.tables := congrArg LoaderState.tables hs
          rw [← this]
          exact h
        | none => rw [hfind] at h; exact absurd h (by simp)
      · simpa [map_find_insert_other key d t2 st.tables hkd] using h
  · intro st1 q1 q2 r hok
    obtain ⟨t2, ht2⟩ := resolve_ok_table env st1 key q1 r hok
    rw [resolve_cached env _ key q2 t2 ht2]
    exact ⟨rfl, rfl⟩

/-- Witness for C3: the cache-hit fast path at a concrete pre-populated
state, the persistence of the entry across a later resolve for another
device, and the zero-open-attempt second call after a successful first
call. -/
theorem c3_cache_hit_idempotent_witness :
    resolve envOK stCached (device.x86cpu, q0) =
      { result := .ok (.cached device.x86cpu), state := stCached, attempts := [],
        symbol_lookups := [], stderr := [], released := [], ops := [] } ∧
    map_find device.x86cpu
        (resolve envOK stCached (device.nvidiagpu, q1)).state.tables = some tbl1 ∧
    (resolve envOK ((resolve envOK st0 (device.x86cpu, q0)).state)
        (device.x86cpu, q1)).attempts = [] :=
  ⟨(c3_cache_hit_idempotent envOK stCached device.x86cpu q0 tbl1 (by decide)).1,
   (c3_cache_hit_idempotent envOK stCached device.x86cpu q0 tbl1 (by decide)).2.1
      envOK device.nvidiagpu q1,
   ((c3_cache_hit_idempotent envOK stCached device.x86cpu q0 tbl1 (by decide)).2.2
      st0 q0 q1 (.plugin 7) (by decide)).1⟩

/-- C4: for every uncached device, the slow path attempts to open the
registry's candidate library names strictly in list order and stops at
the first name that opens successfully (the attempted names are the
leading failing ones followed by the first openable one, if any); in
particular, for candidates `[A, B]` where only `B` is openable, both `A`
and `B` are attempted in that order and the resulting table is the one
exported by `B`. -/
theorem c4_candidates_in_order
    (env : Env) (st : LoaderState) (key : device) (q : sycl_queue)
    (huncached : map_find key st.tables = none) :
    (resolve env st (key, q)).attempts =
      (env.candidates key).takeWhile (fun n => (env.get_lib_handle n).isNone) ++
      ((env.candidates key).dropWhile (fun n => (env.get_lib_handle n).isNone)).take 1 ∧
    (∀ (A B : String) (hb : Handle) (t : function_table_t),
      env.candidates key = [A, B] →
      env.get_lib_handle A = none → env.get_lib_handle B = some hb →
      env.get_func hb env.table_name = some t → t.version = SPEC_VERSION →
      (resolve env st (key, q)).attempts = [A, B] ∧
      (resolve env st (key, q)).result = .ok (.plugin hb) ∧
      map_find key (resolve env st (key, q)).state.tables = some t) := by
  rw [resolve_uncached env st key q huncached]
  constructor
  · rw [add_table_attempts env st key q]
    exact open_candidates_attempts env (env.candidates key)
  · intro A B hb t hcand hA hB hf hv
    have hoc : open_candidates env (env.candidates key) = ([A, B], some hb) := by
      rw [hcand]
      simp [open_candidates, hA, hB]
    have h2 := add_table_success env st key q hb t (by rw [hoc]) hf hv
    rw [h2, hoc]
    exact ⟨rfl, rfl, map_find_insert_self key t st.tables⟩

/-- Witness for C4 at the concrete environment with candidates
`[libA, libB]` for `x86cpu` where only `libB` opens. -/
theorem c4_candidates_in_order_witness :
    (resolve envAB st0 (device.x86cpu, q0)).attempts = ["libA", "libB"] ∧
    (resolve envAB st0 (device.x86cpu, q0)).result = .ok (.plugin 8) ∧
    map_find device.x86cpu (resolve envAB st0 (device.x86cpu, q0)).state.tables =
      some tbl1 :=
  (c4_candidates_in_order envAB st0 device.x86cpu q0 (by decide)).2
    "libA" "libB" 8 tbl1 (by decide) (by decide) (by decide) (by decide) (by decide)

/-- C5: for every uncached device for which no candidate library opens
(including an empty candidate list): if the device is `generic_device`
and no generic backend is compiled in, resolve fails with
`unsupported_device` carrying the queue's device information; in every
other case it emits the platform loader's last error message on
`std::cerr` and fails with `backend_not_found`.  Either way the caches
are untouched. -/
theorem c5_no_candidate_opens
    (env : Env) (st : LoaderState) (key : device) (q : sycl_queue)
    (huncached : map_find key st.tables = none)
    (hfail : ∀ n ∈ env.candidates key, env.get_lib_handle n = none) :
    ((env.is_generic_device_supported = false ∧ key = device.generic_device) →
      resolve env st (key, q) =
        { result := .error (.unsupported_device "" "" q.get_device), state := st,
          attempts := env.candidates key, symbol_lookups := [], stderr := [],
          released := [], ops := [] }) ∧
    (¬(env.is_generic_device_supported = false ∧ key = device.generic_device) →
      resolve env st (key, q) =
        { result := .error .backend_not_found, state := st,
          attempts := env.candidates key, symbol_lookups := [],
          stderr := [env.error_msg], released := [], ops := [] }) := by
  have hoc := open_candidates_all_fail env (env.candidates key) hfail
  rw [resolve_uncached env st key q huncached]
  constructor
  · intro hg
    rw [add_table_no_open_generic env st key q (by rw [hoc]) hg.1 hg.2, hoc]
  · intro hg
    rw [add_table_no_open_other env st key q (by rw [hoc]) hg, hoc]

/-- Witness for C5: the `generic_device` branch (no generic backend
compiled in, empty candidate list) and the `backend_not_found` branch
(`nvidiagpu`, no entry so no candidate opens) at a concrete environment. -/
theorem c5_no_candidate_opens_witness :
    resolve envOK st0 (device.generic_device, q0) =
      { result := .error (.unsupported_device "" "" 3), state := st0,
        attempts := [], symbol_lookups := [], stderr := [],
        released := [], ops := [] } ∧
    resolve envOK st0 (device.nvidiagpu, q0) =
      { result := .error .backend_not_found, state := st0,
        attempts := [], symbol_lookups := [], stderr := ["err"],
        released := [], ops := [] } :=
  ⟨(c5_no_candidate_opens envOK st0 device.generic_device q0 (by decide)
      (by decide)).1 (by decide),
   (c5_no_candidate_opens envOK st0 device.nvidiagpu q0 (by decide)
      (by decide)).2 (by decide)⟩

/-- C6: for every uncached device whose opened plugin exports the
domain's symbol but whose table's version field does not equal the
expected specification version (1), resolve fails with
`specification_mismatch`, the opened library handle is released, and
nothing is inserted into either cache. -/
theorem c6_version_mismatch
    (env : Env) (st : LoaderState) (key : device) (q : sycl_queue)
    (hd : Handle) (t : function_table_t)
    (huncached : map_find key st.tables = none)
    (hopen : (open_candidates env (env.candidates key)).2 = some hd)
    (hsym : env.get_func hd env.table_name = some t)
    (hver : t.version ≠ SPEC_VERSION) :
    (resolve env st (key, q)).result = .error .specification_mismatch ∧
    (resolve env st (key, q)).released = [hd] ∧
    (resolve env st (key, q)).state = st := by
  rw [resolve_uncached env st key q huncached,
      add_table_bad_version env st key q hd t hopen hsym hver]
  exact ⟨rfl, rfl, rfl⟩

/-- Witness for C6 at the concrete environment whose plugin reports
version 2 against the expected version 1. -/
theorem c6_version_mismatch_witness :
    (resolve envV2 st0 (device.x86cpu, q0)).result =
      .error .specification_mismatch ∧
    (resolve envV2 st0 (device.x86cpu, q0)).released = [9] ∧
    (resolve envV2 st0 (device.x86cpu, q0)).state = st0 :=
  c6_version_mismatch envV2 st0 device.x86cpu q0 9 tbl2
    (by decide) (by decide) (by decide) (by decide)

/-- C7: for every uncached device where a candidate library opens but
resolving the domain's exported symbol yields null, resolve emits the
platform loader's last error message, fails with `function_not_found`,
releases the freshly opened library handle on this failure path, and
leaves the caches untouched. -/
theorem c7_missing_symbol
    (env : Env) (st : LoaderState) (key : device) (q : sycl_queue) (hd : Handle)
    (huncached : map_find key st.tables = none)
    (hopen : (open_candidates env (env.candidates key)).2 = some hd)
    (hsym : env.get_func hd env.table_name = none) :
    (resolve env st (key, q)).result = .error .function_not_found ∧
    (resolve env st (key, q)).stderr = [env.error_msg] ∧
    (resolve env st (key, q)).released = [hd] ∧
    (resolve env st (key, q)).state = st := by
  rw [resolve_uncached env st key q huncached,
      add_table_no_sym env st key q hd hopen hsym]
  exact ⟨rfl, rfl, rfl, rfl⟩

/-- Witness for C7 at the concrete environment whose plugin opens as
handle 5 but lacks the exported symbol. -/
theorem c7_missing_symbol_witness :
    (resolve envNoSym st0 (device.x86cpu, q0)).result =
      .error .function_not_found ∧
    (resolve envNoSym st0 (device.x86cpu, q0)).stderr = ["err"] ∧
    (resolve envNoSym st0 (device.x86cpu, q0)).released = [5] ∧
    (resolve envNoSym st0 (device.x86cpu, q0)).state = st0 :=
  c7_missing_symbol envNoSym st0 device.x86cpu q0 5
    (by decide) (by decide) (by decide)

/-- C8: every resolve call preserves the invariant that a device with a
cached function table also has its backing handle in the Handle Cache,
and in the trace of cache mutations every table store is preceded by the
store of the same device's backing handle (which is then found in the
final Handle Cache). -/
theorem c8_handle_before_table
    (env : Env) (st : LoaderState) (key : device) (q : sycl_queue)
    (hinv : cache_invariant st) :
    cache_invariant (resolve env st (key, q)).state ∧
    (∀ (pre : List CacheOp) (d : device) (t : function_table_t) (post : List CacheOp),
      (resolve env st (key, q)).ops = pre ++ CacheOp.storeTable d t :: post →
      ∃ hdl, CacheOp.storeHandle d hdl ∈ pre ∧
        map_find d (resolve env st (key, q)).state.handles = some hdl) := by
  rcases resolve_shape env st key q with ⟨hs, ho⟩ | ⟨hd, t2, _, hs, ho⟩
  · constructor
    · rw [hs]
      exact hinv
    · intro pre d t post hops
      rw [ho] at hops
      exact absurd hops (by simp)
  · constructor
    · rw [hs]
      intro d t ht
      simp only at ht
      by_cases hkd : d = key
      · subst hkd
        exact ⟨hd, by simp only; exact map_find_insert_self d hd st.handles⟩
      · rw [map_find_insert_other d key t2 st.tables hkd] at ht
        obtain ⟨h2, hh2⟩ := hinv d t ht
        refine ⟨h2, ?_⟩
        simp only
        rw [map_find_insert_other d key hd st.handles hkd]
        exact hh2
    · intro pre d t post hops
      rw [ho] at hops
      cases pre with
      | nil => simp at hops
      | cons x pre2 =>
        cases pre2 with
        | nil =>
          simp at hops
          obtain ⟨hx, ⟨hdk, htt⟩, hpost⟩ := hops
          refine ⟨hd, ?_, ?_⟩
          · simp only [List.mem_singleton]
            rw [← hdk]
            exact hx
          · rw [hs, ← hdk]
            simp only
            exact map_find_insert_self key hd st.handles
        | cons y pre3 => simp at hops

/-- Witness for C8: invariant preservation starting from the empty
caches, and the handle stored alongside the table in the concrete
successful resolve. -/
theorem c8_handle_before_table_witness :
    cache_invariant (resolve envOK st0 (device.x86cpu, q0)).state ∧
    (∃ hdl, CacheOp.storeHandle device.x86cpu hdl ∈
        [CacheOp.storeHandle device.x86cpu 7] ∧
      map_find device.x86cpu
        (resolve envOK st0 (device.x86cpu, q0)).state.handles = some hdl) := by
  have hinv0 : cache_invariant st0 := by
    intro d t ht
    simp [st0, map_find] at ht
  have h := c8_handle_before_table envOK st0 device.x86cpu q0 hinv0
  exact ⟨h.1, h.2 [CacheOp.storeHandle device.x86cpu 7] device.x86cpu tbl1 []
    (by decide)⟩

/-- C9: for every device and any two queues, resolve produces the same
cache state, the same open attempts, the same symbol lookups, the same
diagnostics, the same released handles, the same cache mutations, and
results of the same kind (identical on success): the queue argument
influences only the diagnostic payload of the `unsupported_device`
failure. -/
theorem c9_queue_only_diagnostics
    (env : Env) (st : LoaderState) (key : device) (qa qb : sycl_queue) :
    (resolve env st (key, qa)).state = (resolve env st (key, qb)).state ∧
    (resolve env st (key, qa)).attempts = (resolve env st (key, qb)).attempts ∧
    (resolve env st (key, qa)).symbol_lookups =
      (resolve env st (key, qb)).symbol_lookups ∧
    (resolve env st (key, qa)).stderr = (resolve env st (key, qb)).stderr ∧
    (resolve env st (key, qa)).released = (resolve env st (key, qb)).released ∧
    (resolve env st (key, qa)).ops = (resolve env st (key, qb)).ops ∧
    Except.mapError error_kind (resolve env st (key, qa)).result =
      Except.mapError error_kind (resolve env st (key, qb)).result ∧
    (∀ r : TableRef, (resolve env st (key, qa)).result = .ok r ↔
      (resolve env st (key, qb)).result = .ok r) := by
  cases hfind : map_find key st.tables with
  | some t =>
    rw [resolve_cached env st key qa t hfind, resolve_cached env st key qb t hfind]
    simp
  | none =>
    rw [resolve_uncached env st key qa hfind, resolve_uncached env st key qb hfind]
    cases hoc : (open_candidates env (env.candidates key)).2 with
    | none =>
      by_cases hg : env.is_generic_device_supported = false ∧ key = device.generic_device
      · rw [add_table_no_open_generic env st key qa hoc hg.1 hg.2,
            add_table_no_open_generic env st key qb hoc hg.1 hg.2]
        simp [Except.mapError, error_kind]
      · rw [add_table_no_open_other env st key qa hoc hg,
            add_table_no_open_other env st key qb hoc hg]
        simp
    | some hd =>
      cases hf : env.get_func hd env.table_name with
      | none =>
        rw [add_table_no_sym env st key qa hd hoc hf,
            add_table_no_sym env st key qb hd hoc hf]
        simp
      | some t =>
        by_cases hv : t.version ≠ SPEC_VERSION
        · rw [add_table_bad_version env st key qa hd t hoc hf hv,
              add_table_bad_version env st key qb hd t hoc hf hv]
          simp
        · push_neg at hv
          rw [add_table_success env st key qa hd t hoc hf hv,
              add_table_success env st key qb hd t hoc hf hv]
          simp

/-- C10: for every uncached device that has no entry at all in the
registry's candidate map, resolve behaves exactly as for an explicitly
empty candidate list (`std::map::operator[]` default-constructs one): it
makes no library-open attempt and takes the no-candidate failure path
(`unsupported_device` for `generic_device` without generic support,
otherwise `backend_not_found`). -/
theorem c10_missing_registry_entry
    (env env2 : Env) (st : LoaderState) (key : device) (q : sycl_queue)
    (hmiss : map_find key env.libraries = none)
    (henv2 : env2 = { env with libraries := (key, []) :: env.libraries })
    (huncached : map_find key st.tables = none) :
    resolve env st (key, q) = resolve env2 st (key, q) ∧
    (resolve env st (key, q)).attempts = [] ∧
    ((env.is_generic_device_supported = false ∧ key = device.generic_device) →
      (resolve env st (key, q)).result =
        .error (.unsupported_device "" "" q.get_device)) ∧
    (¬(env.is_generic_device_supported = false ∧ key = device.generic_device) →
      (resolve env st (key, q)).result = .error .backend_not_found) := by
  have hc : env.candidates key = [] := by
    simp [Env.candidates, hmiss]
  have hcgen : env2.is_generic_device_supported = env.is_generic_device_supported := by
    rw [henv2]
  have herr : env2.error_msg = env.error_msg := by
    rw [henv2]
  have hc2 : env2.candidates key = [] := by
    rw [henv2]
    simp [Env.candidates, map_find]
  have hoc1 : open_candidates env (env.candidates key) = ([], none) := by
    rw [hc]
    rfl
  have hoc2 : open_candidates env2 (env2.candidates key) = ([], none) := by
    rw [hc2]
    rfl
  rw [resolve_uncached env st key q huncached,
      resolve_uncached env2 st key q huncached]
  by_cases hg : env.is_generic_device_supported = false ∧ key = device.generic_device
  · rw [add_table_no_open_generic env st key q (by rw [hoc1]) hg.1 hg.2,
        add_table_no_open_generic env2 st key q (by rw [hoc2])
          (by rw [hcgen]; exact hg.1) hg.2,
        hoc1, hoc2]
    exact ⟨rfl, rfl, fun _ => rfl, fun hng => absurd hg hng⟩
  · have hg2 : ¬(env2.is_generic_device_supported = false ∧ key = device.generic_device) := by
      rw [hcgen]
      exact hg
    rw [add_table_no_open_other env st key q (by rw [hoc1]) hg,
        add_table_no_open_other env2 st key q (by rw [hoc2]) hg2,
        hoc1, hoc2, herr]
    exact ⟨rfl, rfl, fun hg3 => absurd hg3 hg, fun _ => rfl⟩

/-- Witness for C10: `nvidiagpu` has no entry in the concrete registry,
so resolve makes no open attempt and fails with `backend_not_found`,
exactly as with an explicitly empty candidate list. -/
theorem c10_missing_registry_entry_witness :
    resolve envOK st0 (device.nvidiagpu, q0) =
      resolve { envOK with libraries := (device.nvidiagpu, []) :: envOK.libraries }
        st0 (device.nvidiagpu, q0) ∧
    (resolve envOK st0 (device.nvidiagpu, q0)).attempts = [] ∧
    (resolve envOK st0 (device.nvidiagpu, q0)).result = .error .backend_not_found :=
  have h := c10_missing_registry_entry envOK
    { envOK with libraries := (device.nvidiagpu, []) :: envOK.libraries }
    st0 device.nvidiagpu q0 (by decide) rfl (by decide)
  ⟨h.1, h.2.1, h.2.2.2 (by decide)⟩

end OneMathLoader
